import Mathlib

set_option autoImplicit false

/-!
A shallow embedding of the DoctorJobs transactional outbox library
(`src/index.ts`) and proofs about its `queue` and `run` operations.

Modelling conventions:
* JavaScript errors are modelled by their message strings (`Err`).
* A promise is modelled by `Except Err α`: `Except.error` is a rejection.
* The Prisma database is a `Store`: the `Job` table and the `DeadLetters`
  table as lists of rows.  The direct Prisma calls made by `run`
  (`client.job.delete`, `client.deadLetters.create`) are modelled by
  `jobDelete` and `deadLettersCreate`, with a `Faults` record injecting
  store failures so that store-unavailability behaviour can be stated.
* The caller-supplied `getJob` (bound to the client in the constructor) and
  `handleJobs` are passed to `run` explicitly as functions.
* `run` is `async` but never awaits the processing pipeline it builds
  (`pipe(await this.getJob(), O.match(...))` is a bare statement at
  line 151 of the source): the fold produced by `TE.fold` is invoked and
  its promise discarded.  The embedding therefore separates `promise`
  (the outcome of the promise `run` returns to its caller) from
  `detached` (the outcome of the discarded resolution task), while the
  store writes performed by the detached task are recorded in order in
  `states`.
-/

/-- Errors, modelled as their message strings. -/
abbrev Err := String

/-- A row of the `Job` table (README schema): an id, a creation time and
the serialized payload in `data`.  (`updatedAt` is never read and omitted.) -/
structure Job where
  id : String
  createdAt : Nat
  data : String
  deriving DecidableEq, Repr

/-- A row of the `DeadLetters` table as written by `run`
(`client.deadLetters.create({ data: { id: job.id, data: job.data } })`,
source lines 172-177).  The store-assigned `createdAt` is never read back
by the library and is omitted. -/
structure DeadLetter where
  id : String
  data : String
  deriving DecidableEq, Repr

/-- The Prisma database visible to the runner: the job table and the
dead-letter table. -/
structure Store where
  jobs : List Job
  deadLetters : List DeadLetter
  deriving DecidableEq, Repr

/-- Fault injection for the two direct Prisma writes `run` performs:
when a flag is set, the corresponding call rejects. -/
structure Faults where
  deleteFails : Bool
  createDeadLetterFails : Bool
  deriving DecidableEq, Repr

/-- No store faults: every Prisma write succeeds. -/
def noFaults : Faults := { deleteFails := false, createDeadLetterFails := false }

/-- `client.job.delete({ where: { id } })` (source line 171/183): removes
the row with the given id, or rejects when the store fails. -/
def jobDelete (f : Faults) (st : Store) (id : String) : Except Err Store :=
  if f.deleteFails then Except.error "job.delete failed"
  else Except.ok { st with jobs := st.jobs.filter (fun j => j.id != id) }

/-- `client.deadLetters.create({ data: { id, data } })` (source lines
172-177): appends a dead-letter row, or rejects when the store fails. -/
def deadLettersCreate (f : Faults) (st : Store) (id : String) (data : String) :
    Except Err Store :=
  if f.createDeadLetterFails then Except.error "deadLetters.create failed"
  else Except.ok { st with deadLetters := st.deadLetters ++ [{ id := id, data := data }] }

/-- The options fixed at construction time that `run` reads (source
lines 88-119): whether the optional `logger` was supplied (`this.log` is
`undefined` otherwise), the injected `parseJob`, and the injected
`createDeadLetter` (bound to the client, stored on the instance, but —
as proved below — never used by `run`). -/
structure DoctorJobs (Jobs : Type) where
  hasLogger : Bool
  parseJob : Job → Except Err Jobs
  createDeadLetter : DeadLetter → Store → Except Err Store

/-- The observable outcome of one `run` invocation. -/
structure RunResult where
  /-- Outcome of the promise `run` returns to its caller. -/
  promise : Except Err Unit
  /-- The job returned by `getJob`, if any. -/
  fetched : Option Job
  /-- Whether `handleJobs` was invoked (it is exactly when parsing succeeded). -/
  handlerCalled : Bool
  /-- The store states seen in order: the initial store, then one entry
  after each successful Prisma write of the resolution task. -/
  states : List Store
  /-- The store after all writes of the invocation have settled. -/
  finalStore : Store
  /-- Outcome of the detached resolution task, whose promise the source
  discards (an error here is an unhandled rejection). -/
  detached : Except Err Unit

/-- The `TE.fromEither(parseJob job)` / `TE.chain(tryCatch(handleJobs ...))`
pipeline of `run` (source lines 158-165): parse the job, short-circuiting
to the parse error, else run the handler, wrapping its error as
`handling job failed: ...`. -/
def DoctorJobs.processOutcome {Jobs : Type} (dj : DoctorJobs Jobs)
    (handleJobs : Jobs → Except Err Unit) (job : Job) : Except Err Unit :=
  match dj.parseJob job with
  | Except.error e => Except.error e
  | Except.ok parsed =>
    match handleJobs parsed with
    | Except.error e => Except.error ("handling job failed: " ++ e)
    | Except.ok _ => Except.ok ()

/-- `DoctorJobs.run` (source lines 149-191).
Control flow of the source, in order:
1. `this.log.info(...)` — when the instance was constructed without the
   optional logger, `this.log` is `undefined` and this line throws a
   `TypeError`, rejecting `run`'s promise before `getJob` is ever called.
2. `await this.getJob()` — a rejection here rejects `run`'s promise.
3. On `O.none`: log and stop, no store write.
4. On `O.some job`: build the parse/handle pipeline and fold it: on error,
   `await client.job.delete` THEN `await client.deadLetters.create`; on
   success, `await client.job.delete` only.  The fold's task is invoked
   but its promise is a bare expression statement, never awaited or
   returned, so `run`'s own promise resolves with `()` regardless of the
   task's outcome; the task's outcome is recorded in `detached`. -/
def DoctorJobs.run {Jobs : Type} (dj : DoctorJobs Jobs)
    (getJob : Store → Except Err (Option Job))
    (handleJobs : Jobs → Except Err Unit)
    (f : Faults) (st : Store) : RunResult :=
  if dj.hasLogger then
    match getJob st with
    | Except.error e =>
      { promise := Except.error e, fetched := none, handlerCalled := false,
        states := [st], finalStore := st, detached := Except.ok () }
    | Except.ok none =>
      { promise := Except.ok (), fetched := none, handlerCalled := false,
        states := [st], finalStore := st, detached := Except.ok () }
    | Except.ok (some job) =>
      let hc : Bool := match dj.parseJob job with
        | Except.ok _ => true
        | Except.error _ => false
      match dj.processOutcome handleJobs job with
      | Except.error _ =>
        match jobDelete f st job.id with
        | Except.error e =>
          { promise := Except.ok (), fetched := some job, handlerCalled := hc,
            states := [st], finalStore := st, detached := Except.error e }
        | Except.ok st1 =>
          match deadLettersCreate f st1 job.id job.data with
          | Except.error e =>
            { promise := Except.ok (), fetched := some job, handlerCalled := hc,
              states := [st, st1], finalStore := st1, detached := Except.error e }
          | Except.ok st2 =>
            { promise := Except.ok (), fetched := some job, handlerCalled := hc,
              states := [st, st1, st2], finalStore := st2, detached := Except.ok () }
      | Except.ok _ =>
        match jobDelete f st job.id with
        | Except.error e =>
          { promise := Except.ok (), fetched := some job, handlerCalled := hc,
            states := [st], finalStore := st, detached := Except.error e }
        | Except.ok st1 =>
          { promise := Except.ok (), fetched := some job, handlerCalled := hc,
            states := [st, st1], finalStore := st1, detached := Except.ok () }
  else
    { promise := Except.error "TypeError: cannot read properties of undefined (reading info)",
      fetched := none, handlerCalled := false,
      states := [st], finalStore := st, detached := Except.ok () }

/-- State visible to `DoctorJobs.queue`: the caller's business data (an
abstract type `B`) and the payload column of the `Job` table rows created
so far.  `createJob` is modelled as in the README (`tx.job.create({ data })`),
appending a row whose payload is the given string. -/
structure OutboxState (B : Type) where
  business : B
  jobPayloads : List String
  deriving DecidableEq, Repr

/-- `DoctorJobs.queue` (source lines 128-140).  `client.$transaction` runs
the callback `fn` with a transactional handle; the callback performs
business writes and returns `{ data, job }`.  If the callback throws the
transaction aborts: nothing is committed and the error propagates.
Otherwise `createJob(tx, JSON.stringify(job))` appends a job row with the
serialized payload (`serialize` models `JSON.stringify`) and the
transaction commits; on commit failure (`commitFails`) everything rolls
back and the error propagates; on success `queue` resolves with `data`. -/
def queue {B D Jobs : Type} (commitFails : Bool) (serialize : Jobs → String)
    (fn : B → Except Err (B × D × Jobs)) (st : OutboxState B) :
    Except Err D × OutboxState B :=
  match fn st.business with
  | Except.error e => (Except.error e, st)
  | Except.ok (b, d, jb) =>
    if commitFails then (Except.error "transaction commit failed", st)
    else (Except.ok d, { business := b, jobPayloads := st.jobPayloads ++ [serialize jb] })

/-- The README's `getJob` (`client.job.findFirst({ orderBy: { createdAt: "asc" } })`):
the job with the smallest creation time, `none` on an empty table. -/
def oldestJob : List Job → Option Job
  | [] => none
  | j :: rest =>
    match oldestJob rest with
    | none => some j
    | some k => if j.createdAt ≤ k.createdAt then some j else some k

/-- An injected `getJob` that returns the oldest pending job. -/
def getOldest : Store → Except Err (Option Job) :=
  fun st => Except.ok (oldestJob st.jobs)

/-! Concrete instances and inputs used by witnesses and counterexamples. -/

/-- README-style parser that always succeeds, returning the raw payload. -/
def exParseOk : Job → Except Err String := fun jb => Except.ok jb.data

/-- A parser that rejects every payload (unknown variant tag). -/
def exParseFail : Job → Except Err String := fun _ => Except.error "unknown job type"

/-- An injected `createDeadLetter` that writes nothing. -/
def exCDL : DeadLetter → Store → Except Err Store := fun _ st => Except.ok st

/-- An injected `createDeadLetter` that always rejects. -/
def exCDLFail : DeadLetter → Store → Except Err Store :=
  fun _ _ => Except.error "injected createDeadLetter"

/-- A handler that succeeds on every job. -/
def exHandlerOk : String → Except Err Unit := fun _ => Except.ok ()

/-- A handler that throws, as in the README's `reticulateSplines` branch. -/
def exHandlerFail : String → Except Err Unit :=
  fun _ => Except.error "reticulateSplines is not implemented yet!"

/-- An instance with a logger and an always-succeeding parser. -/
def djOk : DoctorJobs String :=
  { hasLogger := true, parseJob := exParseOk, createDeadLetter := exCDL }

/-- An instance with a logger whose parser rejects every payload. -/
def djParseFail : DoctorJobs String :=
  { hasLogger := true, parseJob := exParseFail, createDeadLetter := exCDL }

/-- An instance constructed without the optional `logger`. -/
def djNoLogger : DoctorJobs String :=
  { hasLogger := false, parseJob := exParseOk, createDeadLetter := exCDL }

/-- Example job rows. -/
def jA : Job := { id := "a", createdAt := 1, data := "payloadA" }

def jB : Job := { id := "b", createdAt := 2, data := "payloadB" }

def jC : Job := { id := "c", createdAt := 3, data := "payloadC" }

/-- A store holding the single job `jA`. -/
def storeA : Store := { jobs := [jA], deadLetters := [] }

/-- A store holding `jA`, `jB`, `jC` out of creation order. -/
def storeBAC : Store := { jobs := [jB, jA, jC], deadLetters := [] }

/-- The empty store. -/
def emptyStore : Store := { jobs := [], deadLetters := [] }

/-- Example serializer (models `JSON.stringify` on a unit job description). -/
def exSerialize : Unit → String := fun _ => "J"

/-- Example business callback that succeeds, writing `7` and returning `5`. -/
def exFnOk : Nat → Except Err (Nat × Nat × Unit) := fun _ => Except.ok (7, 5, ())

/-- Example business callback that throws. -/
def exFnErr : Nat → Except Err (Nat × Nat × Unit) := fun _ => Except.error "boom"

/-- Example outbox state: business value `0`, one pre-existing payload. -/
def exOutbox : OutboxState Nat := { business := 0, jobPayloads := ["p0"] }

/-- An injected `getJob` whose store is unreachable. -/
def getJobDown : Store → Except Err (Option Job) :=
  fun _ => Except.error "store unreachable"

/-- Faults where `client.job.delete` rejects but `deadLetters.create` works. -/
def faultsDeleteDown : Faults := { deleteFails := true, createDeadLetterFails := false }

/-! Theorems. -/

/-- C1: `queue` is atomic.  If the business callback throws, the
transaction aborts: the error is surfaced and neither business data nor a
job row is committed.  If the callback returns `(data, job)` normally and
the commit succeeds, both the business writes and a job row whose payload
is the serialization of `job` are committed, and `queue` returns `data`. -/
theorem queue_atomicity {B D Jobs : Type} (cf : Bool) (serialize : Jobs → String)
    (fn : B → Except Err (B × D × Jobs)) (st : OutboxState B) :
    (∀ e, fn st.business = Except.error e →
      queue cf serialize fn st = (Except.error e, st)) ∧
    (∀ b d jb, fn st.business = Except.ok (b, d, jb) → cf = false →
      queue cf serialize fn st =
        (Except.ok d, { business := b, jobPayloads := st.jobPayloads ++ [serialize jb] })) := by
  constructor
  · intro e he
    simp [queue, he]
  · intro b d jb h hcf
    simp [queue, h, hcf]

/-- Witness for C1 at concrete inputs: a throwing callback commits
nothing and surfaces `boom`; a successful callback commits the business
value and the serialized job row and returns its data result. -/
theorem queue_atomicity_witness :
    queue false exSerialize exFnErr exOutbox = (Except.error "boom", exOutbox) ∧
    queue false exSerialize exFnOk exOutbox =
      (Except.ok 5, { business := 7, jobPayloads := ["p0", "J"] }) :=
  ⟨(queue_atomicity false exSerialize exFnErr exOutbox).1 "boom" rfl,
   (queue_atomicity false exSerialize exFnOk exOutbox).2 7 5 () rfl rfl⟩

/-- C9: on an instance constructed without the optional logger, every
`run` call rejects with the `TypeError` raised by reading `.info` off
`undefined`, before any store operation: the result is independent of
`getJob`, the store is untouched and the handler never invoked — even
when the queue is empty. -/
theorem run_without_logger_rejects_before_store {Jobs : Type} (dj : DoctorJobs Jobs)
    (hlog : dj.hasLogger = false)
    (getJob getJob2 : Store → Except Err (Option Job))
    (handleJobs : Jobs → Except Err Unit) (f : Faults) (st : Store) :
    (dj.run getJob handleJobs f st).promise =
      Except.error "TypeError: cannot read properties of undefined (reading info)" ∧
    (dj.run getJob handleJobs f st).finalStore = st ∧
    (dj.run getJob handleJobs f st).handlerCalled = false ∧
    dj.run getJob handleJobs f st = dj.run getJob2 handleJobs f st := by
  simp [DoctorJobs.run, hlog]

/-- Witness for C9: the logger-less instance on the empty store, with an
honest `getJob` vs. an unreachable one. -/
theorem run_without_logger_rejects_before_store_witness :
    (djNoLogger.run getOldest exHandlerOk noFaults emptyStore).promise =
      Except.error "TypeError: cannot read properties of undefined (reading info)" ∧
    (djNoLogger.run getOldest exHandlerOk noFaults emptyStore).finalStore = emptyStore ∧
    (djNoLogger.run getOldest exHandlerOk noFaults emptyStore).handlerCalled = false ∧
    djNoLogger.run getOldest exHandlerOk noFaults emptyStore =
      djNoLogger.run getJobDown exHandlerOk noFaults emptyStore :=
  run_without_logger_rejects_before_store djNoLogger rfl getOldest getJobDown
    exHandlerOk noFaults emptyStore

/-- C10: `run` never invokes the injected `createDeadLetter`: two
instances that differ only in that field behave identically on every
input — quarantined jobs are written through `client.deadLetters.create`
directly. -/
theorem run_ignores_injected_createDeadLetter {Jobs : Type} (dj : DoctorJobs Jobs)
    (g : DeadLetter → Store → Except Err Store)
    (getJob : Store → Except Err (Option Job))
    (handleJobs : Jobs → Except Err Unit) (f : Faults) (st : Store) :
    DoctorJobs.run { dj with createDeadLetter := g } getJob handleJobs f st =
      dj.run getJob handleJobs f st := by
  cases dj
  rfl

/-- C6, code evaluated at the failing input: the README constructs the
instance without a logger and drives `run` from `setInterval`; on such an
instance `run` rejects even on an empty queue, because `this.log.info`
is read off `undefined` — against the spec's "no errors" and the
constructor's own optional `logger?` signature. -/
theorem run_empty_queue_no_logger_rejects :
    (djNoLogger.run getOldest exHandlerOk noFaults emptyStore).promise =
      Except.error "TypeError: cannot read properties of undefined (reading info)" := rfl

/-- C8: when the fetched job parses and the handler resolves, `run`
deletes that job row, creates no dead letter, and both the returned
promise and the resolution task settle cleanly. -/
theorem run_success_deletes_job_only {Jobs : Type} (dj : DoctorJobs Jobs)
    (getJob : Store → Except Err (Option Job)) (handleJobs : Jobs → Except Err Unit)
    (st : Store) (job : Job) (p : Jobs)
    (hlog : dj.hasLogger = true)
    (hget : getJob st = Except.ok (some job))
    (hparse : dj.parseJob job = Except.ok p)
    (hhandle : handleJobs p = Except.ok ()) :
    (dj.run getJob handleJobs noFaults st).finalStore.jobs =
      st.jobs.filter (fun k => k.id != job.id) ∧
    (dj.run getJob handleJobs noFaults st).finalStore.deadLetters = st.deadLetters ∧
    (dj.run getJob handleJobs noFaults st).promise = Except.ok () ∧
    (dj.run getJob handleJobs noFaults st).detached = Except.ok () := by
  simp [DoctorJobs.run, hlog, hget, DoctorJobs.processOutcome, hparse, hhandle,
    jobDelete, noFaults]

/-- Witness for C8: the single job `jA` parses under the README parser
and its handler succeeds; `run` leaves an empty job table and no dead
letters. -/
theorem run_success_deletes_job_only_witness :
    (djOk.run getOldest exHandlerOk noFaults storeA).finalStore.jobs =
      storeA.jobs.filter (fun k => k.id != jA.id) ∧
    (djOk.run getOldest exHandlerOk noFaults storeA).finalStore.deadLetters =
      storeA.deadLetters ∧
    (djOk.run getOldest exHandlerOk noFaults storeA).promise = Except.ok () ∧
    (djOk.run getOldest exHandlerOk noFaults storeA).detached = Except.ok () :=
  run_success_deletes_job_only djOk getOldest exHandlerOk storeA jA "payloadA"
    rfl rfl rfl rfl

/-- C3: a parse failure (`parseJob` returns a Left) or a handler failure
(`handleJobs` rejects) on a fetched job is resolved inside `run` (store
writes succeeding): a dead letter carrying the job's id and payload is
created, the job row is removed, and the promise `run` returns does not
reject with the parse or handler error. -/
theorem run_resolves_failures_internally {Jobs : Type} (dj : DoctorJobs Jobs)
    (getJob : Store → Except Err (Option Job)) (handleJobs : Jobs → Except Err Unit)
    (st : Store) (job : Job)
    (hlog : dj.hasLogger = true)
    (hget : getJob st = Except.ok (some job))
    (hfail : (∃ e, dj.parseJob job = Except.error e) ∨
             (∃ p e, dj.parseJob job = Except.ok p ∧ handleJobs p = Except.error e)) :
    (dj.run getJob handleJobs noFaults st).promise = Except.ok () ∧
    ({ id := job.id, data := job.data } : DeadLetter) ∈
      (dj.run getJob handleJobs noFaults st).finalStore.deadLetters ∧
    ∀ k ∈ (dj.run getJob handleJobs noFaults st).finalStore.jobs, k.id ≠ job.id := by
  have hpo : ∃ e, dj.processOutcome handleJobs job = Except.error e := by
    rcases hfail with ⟨e, he⟩ | ⟨p, e, hp, he⟩
    · exact ⟨e, by simp [DoctorJobs.processOutcome, he]⟩
    · exact ⟨"handling job failed: " ++ e, by simp [DoctorJobs.processOutcome, hp, he]⟩
  rcases hpo with ⟨e, hpo⟩
  refine ⟨?_, ?_, ?_⟩ <;>
    simp [DoctorJobs.run, hlog, hget, hpo, jobDelete, deadLettersCreate, noFaults,
      List.mem_filter]

/-- Witness for C3: a payload the parser rejects is quarantined — dead
letter present, job gone, promise resolved. -/
theorem run_resolves_failures_internally_witness :
    (djParseFail.run getOldest exHandlerOk noFaults storeA).promise = Except.ok () ∧
    ({ id := jA.id, data := jA.data } : DeadLetter) ∈
      (djParseFail.run getOldest exHandlerOk noFaults storeA).finalStore.deadLetters ∧
    ∀ k ∈ (djParseFail.run getOldest exHandlerOk noFaults storeA).finalStore.jobs,
      k.id ≠ jA.id :=
  run_resolves_failures_internally djParseFail getOldest exHandlerOk storeA jA rfl rfl
    (Or.inl ⟨"unknown job type", rfl⟩)

/-- C4: the dead letter written on quarantine carries exactly the
originating job's id and its raw payload `job.data`, unmodified. -/
theorem quarantine_preserves_id_and_payload {Jobs : Type} (dj : DoctorJobs Jobs)
    (getJob : Store → Except Err (Option Job)) (handleJobs : Jobs → Except Err Unit)
    (st : Store) (job : Job) (e : Err)
    (hlog : dj.hasLogger = true)
    (hget : getJob st = Except.ok (some job))
    (hpo : dj.processOutcome handleJobs job = Except.error e) :
    (dj.run getJob handleJobs noFaults st).finalStore.deadLetters =
      st.deadLetters ++ [{ id := job.id, data := job.data }] := by
  simp [DoctorJobs.run, hlog, hget, hpo, jobDelete, deadLettersCreate, noFaults]

/-- Witness for C4: the README's `reticulateSplines`-style throwing
handler quarantines `jA` with its exact id and payload. -/
theorem quarantine_preserves_id_and_payload_witness :
    (djOk.run getOldest exHandlerFail noFaults storeA).finalStore.deadLetters =
      storeA.deadLetters ++ [{ id := jA.id, data := jA.data }] :=
  quarantine_preserves_id_and_payload djOk getOldest exHandlerFail storeA jA
    "handling job failed: reticulateSplines is not implemented yet!" rfl rfl rfl

/-- C2 (amended): in every quarantine resolution the source deletes the
job row FIRST (line 171) and creates the dead letter SECOND (lines
172-177): the state trace passes through an intermediate store in which
the job is already absent while its dead letter does not yet exist. -/
theorem quarantine_deletes_then_creates {Jobs : Type} (dj : DoctorJobs Jobs)
    (getJob : Store → Except Err (Option Job)) (handleJobs : Jobs → Except Err Unit)
    (st : Store) (job : Job) (e : Err)
    (hlog : dj.hasLogger = true)
    (hget : getJob st = Except.ok (some job))
    (hpo : dj.processOutcome handleJobs job = Except.error e) :
    (dj.run getJob handleJobs noFaults st).states =
      [st,
       { jobs := st.jobs.filter (fun j => j.id != job.id), deadLetters := st.deadLetters },
       { jobs := st.jobs.filter (fun j => j.id != job.id),
         deadLetters := st.deadLetters ++ [{ id := job.id, data := job.data }] }] := by
  simp [DoctorJobs.run, hlog, hget, hpo, jobDelete, deadLettersCreate, noFaults]

/-- Witness for the amended C2 at a concrete quarantined job. -/
theorem quarantine_deletes_then_creates_witness :
    (djParseFail.run getOldest exHandlerFail noFaults storeA).states =
      [storeA,
       { jobs := storeA.jobs.filter (fun j => j.id != jA.id),
         deadLetters := storeA.deadLetters },
       { jobs := storeA.jobs.filter (fun j => j.id != jA.id),
         deadLetters := storeA.deadLetters ++ [{ id := jA.id, data := jA.data }] }] :=
  quarantine_deletes_then_creates djParseFail getOldest exHandlerFail storeA jA
    "unknown job type" rfl rfl rfl

/-- Counterexample to C2 as stated: quarantining the concrete job `jA`
passes through a store state in which no job row with `jA`'s id remains
and yet no dead letter with that id exists — the dead letter is NOT
created before the job is deleted. -/
theorem quarantine_creates_before_delete_counterexample :
    ¬ (∀ s ∈ (djParseFail.run getOldest exHandlerOk noFaults storeA).states,
        (∀ k ∈ s.jobs, k.id ≠ jA.id) → ∃ d ∈ s.deadLetters, d.id = jA.id) := by
  decide

/-- C5 (amended): the promise `run` returns rejects exactly when the
instance has no logger (the `this.log.info` `TypeError`) or `getJob`
itself rejects.  Resolution-write failures never reject it: the
resolution runs in a promise the source discards without awaiting. -/
theorem run_promise_rejects_iff {Jobs : Type} (dj : DoctorJobs Jobs)
    (getJob : Store → Except Err (Option Job)) (handleJobs : Jobs → Except Err Unit)
    (f : Faults) (st : Store) :
    (∃ e, (dj.run getJob handleJobs f st).promise = Except.error e) ↔
      dj.hasLogger = false ∨ ∃ e, getJob st = Except.error e := by
  cases hlog : dj.hasLogger with
  | false => simp [DoctorJobs.run, hlog]
  | true =>
    cases hget : getJob st with
    | error e => simp [DoctorJobs.run, hlog, hget]
    | ok o =>
      cases o with
      | none => simp [DoctorJobs.run, hlog, hget]
      | some job =>
        cases hpo : dj.processOutcome handleJobs job with
        | error e =>
          cases hdel : jobDelete f st job.id with
          | error e1 => simp [DoctorJobs.run, hlog, hget, hpo, hdel]
          | ok st1 =>
            cases hdlc : deadLettersCreate f st1 job.id job.data with
            | error e2 => simp [DoctorJobs.run, hlog, hget, hpo, hdel, hdlc]
            | ok st2 => simp [DoctorJobs.run, hlog, hget, hpo, hdel, hdlc]
        | ok u =>
          cases hdel : jobDelete f st job.id with
          | error e1 => simp [DoctorJobs.run, hlog, hget, hpo, hdel]
          | ok st1 => simp [DoctorJobs.run, hlog, hget, hpo, hdel]

/-- Counterexample to C5 as stated: with the store's delete rejecting
during the quarantine of `jA`, the resolution write fails (the detached
task rejects and the job stays pending) yet `run`'s returned promise
resolves with `()` — the failure is NOT surfaced to `run`'s caller. -/
theorem resolution_failure_not_surfaced :
    (djParseFail.run getOldest exHandlerOk faultsDeleteDown storeA).detached =
      Except.error "job.delete failed" ∧
    (djParseFail.run getOldest exHandlerOk faultsDeleteDown storeA).promise =
      Except.ok () ∧
    (djParseFail.run getOldest exHandlerOk faultsDeleteDown storeA).finalStore = storeA :=
  ⟨rfl, rfl, rfl⟩

/-- The job returned by `oldestJob` is one of the rows. -/
theorem oldestJob_mem {l : List Job} {j : Job} : oldestJob l = some j → j ∈ l := by
  induction l with
  | nil => intro h; simp [oldestJob] at h
  | cons a rest ih =>
    intro h
    simp only [oldestJob] at h
    cases hr : oldestJob rest with
    | none =>
      rw [hr] at h
      simp at h
      subst h
      exact List.mem_cons_self a rest
    | some k =>
      rw [hr] at h
      dsimp only at h
      by_cases hle : a.createdAt ≤ k.createdAt
      · rw [if_pos hle] at h
        simp at h
        subst h
        exact List.mem_cons_self a rest
      · rw [if_neg hle] at h
        simp at h
        subst h
        exact List.mem_cons_of_mem a (ih hr)

/-- A row strictly older than every other row is the one `oldestJob` finds. -/
theorem oldestJob_of_strict_min {l : List Job} {j : Job} :
    j ∈ l → (∀ k ∈ l, k ≠ j → j.createdAt < k.createdAt) → oldestJob l = some j := by
  induction l with
  | nil => intro h _; exact absurd h (List.not_mem_nil j)
  | cons a rest ih =>
    intro hmem hmin
    simp only [oldestJob]
    rcases List.mem_cons.mp hmem with rfl | hmem'
    · cases hr : oldestJob rest with
      | none => rfl
      | some k =>
        have hk : k ∈ rest := oldestJob_mem hr
        dsimp only
        by_cases hkj : k = j
        · subst hkj
          rw [if_pos (le_refl _)]
        · have hlt : j.createdAt < k.createdAt :=
            hmin k (List.mem_cons_of_mem _ hk) hkj
          rw [if_pos (le_of_lt hlt)]
    · have hIH : oldestJob rest = some j :=
        ih hmem' (fun k hk hkj => hmin k (List.mem_cons_of_mem _ hk) hkj)
      rw [hIH]
      dsimp only
      by_cases haj : a = j
      · subst haj
        rw [if_pos (le_refl _)]
      · have hlt : j.createdAt < a.createdAt :=
          hmin a (List.mem_cons_self a rest) haj
        rw [if_neg (not_le_of_lt hlt)]

/-- One `run` step under the oldest-first `getJob`: the oldest job is the
one fetched, and afterwards exactly the rows carrying its id are gone from
the job table — whether the job succeeded or was quarantined. -/
theorem run_fetched_and_jobs {Jobs : Type} (dj : DoctorJobs Jobs)
    (handleJobs : Jobs → Except Err Unit) (st : Store) (j : Job)
    (hlog : dj.hasLogger = true) (hold : oldestJob st.jobs = some j) :
    (dj.run getOldest handleJobs noFaults st).fetched = some j ∧
    (dj.run getOldest handleJobs noFaults st).finalStore.jobs =
      st.jobs.filter (fun k => k.id != j.id) := by
  have hget : getOldest st = Except.ok (some j) := by simp [getOldest, hold]
  cases hpo : dj.processOutcome handleJobs j with
  | error e =>
    constructor <;>
      simp [DoctorJobs.run, hlog, hget, hpo, jobDelete, deadLettersCreate, noFaults]
  | ok u =>
    constructor <;>
      simp [DoctorJobs.run, hlog, hget, hpo, jobDelete, noFaults]

/-- C7: with `getJob` returning the oldest pending job, three jobs with
creation times `t1 < t2 < t3` (and distinct ids) are processed by
sequential `run` invocations in exactly that order — each invocation
fetches at most the single oldest job — leaving the queue empty. -/
theorem run_processes_oldest_first {Jobs : Type} (dj : DoctorJobs Jobs)
    (handleJobs : Jobs → Except Err Unit) (st : Store) (j1 j2 j3 : Job)
    (hlog : dj.hasLogger = true)
    (h1 : j1 ∈ st.jobs) (h2 : j2 ∈ st.jobs) (h3 : j3 ∈ st.jobs)
    (hall : ∀ k ∈ st.jobs, k = j1 ∨ k = j2 ∨ k = j3)
    (t12 : j1.createdAt < j2.createdAt) (t23 : j2.createdAt < j3.createdAt)
    (i12 : j1.id ≠ j2.id) (i13 : j1.id ≠ j3.id) (i23 : j2.id ≠ j3.id) :
    (dj.run getOldest handleJobs noFaults st).fetched = some j1 ∧
    (dj.run getOldest handleJobs noFaults
      (dj.run getOldest handleJobs noFaults st).finalStore).fetched = some j2 ∧
    (dj.run getOldest handleJobs noFaults
      (dj.run getOldest handleJobs noFaults
        (dj.run getOldest handleJobs noFaults st).finalStore).finalStore).fetched =
      some j3 ∧
    (dj.run getOldest handleJobs noFaults
      (dj.run getOldest handleJobs noFaults
        (dj.run getOldest handleJobs noFaults st).finalStore).finalStore).finalStore.jobs =
      [] := by
  have hmin1 : ∀ k ∈ st.jobs, k ≠ j1 → j1.createdAt < k.createdAt := by
    intro k hk hne
    rcases hall k hk with rfl | rfl | rfl
    · exact absurd rfl hne
    · exact t12
    · exact lt_trans t12 t23
  obtain ⟨hf1, hjobs1⟩ :=
    run_fetched_and_jobs dj handleJobs st j1 hlog (oldestJob_of_strict_min h1 hmin1)
  set st1 := (dj.run getOldest handleJobs noFaults st).finalStore with hst1
  have hmem2 : j2 ∈ st1.jobs := by
    rw [hjobs1]
    exact List.mem_filter.mpr ⟨h2, by simpa using Ne.symm i12⟩
  have hsub2 : ∀ k ∈ st1.jobs, k = j2 ∨ k = j3 := by
    intro k hk
    rw [hjobs1] at hk
    obtain ⟨hkst, hkid⟩ := List.mem_filter.mp hk
    have hkne1 : k.id ≠ j1.id := by simpa using hkid
    rcases hall k hkst with rfl | rfl | rfl
    · exact absurd rfl hkne1
    · exact Or.inl rfl
    · exact Or.inr rfl
  have hmin2 : ∀ k ∈ st1.jobs, k ≠ j2 → j2.createdAt < k.createdAt := by
    intro k hk hne
    rcases hsub2 k hk with rfl | rfl
    · exact absurd rfl hne
    · exact t23
  obtain ⟨hf2, hjobs2⟩ :=
    run_fetched_and_jobs dj handleJobs st1 j2 hlog (oldestJob_of_strict_min hmem2 hmin2)
  set st2 := (dj.run getOldest handleJobs noFaults st1).finalStore with hst2
  have hmem3 : j3 ∈ st2.jobs := by
    rw [hjobs2]
    refine List.mem_filter.mpr ⟨?_, by simpa using Ne.symm i23⟩
    rw [hjobs1]
    exact List.mem_filter.mpr ⟨h3, by simpa using Ne.symm i13⟩
  have hsub3 : ∀ k ∈ st2.jobs, k = j3 := by
    intro k hk
    rw [hjobs2] at hk
    obtain ⟨hk1, hkid⟩ := List.mem_filter.mp hk
    have hkne2 : k.id ≠ j2.id := by simpa using hkid
    rcases hsub2 k hk1 with rfl | rfl
    · exact absurd rfl hkne2
    · rfl
  have hmin3 : ∀ k ∈ st2.jobs, k ≠ j3 → j3.createdAt < k.createdAt := by
    intro k hk hne
    exact absurd (hsub3 k hk) hne
  obtain ⟨hf3, hjobs3⟩ :=
    run_fetched_and_jobs dj handleJobs st2 j3 hlog (oldestJob_of_strict_min hmem3 hmin3)
  refine ⟨hf1, hf2, hf3, ?_⟩
  rw [hjobs3]
  refine List.eq_nil_iff_forall_not_mem.mpr ?_
  intro k hk
  obtain ⟨hk2, hkid⟩ := List.mem_filter.mp hk
  have hkne3 : k.id ≠ j3.id := by simpa using hkid
  exact hkne3 (by rw [hsub3 k hk2])

/-- Witness for C7: jobs `jA`, `jB`, `jC` (creation times 1 < 2 < 3)
inserted out of order are fetched oldest-first over three runs, emptying
the queue. -/
theorem run_processes_oldest_first_witness :
    (djOk.run getOldest exHandlerOk noFaults storeBAC).fetched = some jA ∧
    (djOk.run getOldest exHandlerOk noFaults
      (djOk.run getOldest exHandlerOk noFaults storeBAC).finalStore).fetched = some jB ∧
    (djOk.run getOldest exHandlerOk noFaults
      (djOk.run getOldest exHandlerOk noFaults
        (djOk.run getOldest exHandlerOk noFaults storeBAC).finalStore).finalStore).fetched =
      some jC ∧
    (djOk.run getOldest exHandlerOk noFaults
      (djOk.run getOldest exHandlerOk noFaults
        (djOk.run getOldest exHandlerOk noFaults
          storeBAC).finalStore).finalStore).finalStore.jobs = [] :=
  run_processes_oldest_first djOk exHandlerOk storeBAC jA jB jC rfl
    (by decide) (by decide) (by decide) (by decide) (by decide) (by decide)
    (by decide) (by decide) (by decide)
